import Mathlib

/-!
Shallow embedding of the baasix-sdk core (src/client.ts, src/modules/auth.ts,
src/modules/realtime.ts) and proofs about its credential lifecycle, refresh
coordination, request retry pipeline and realtime subscription registry.

The SDK is single logical thread JavaScript with cooperative suspension at
awaits; stateful code is embedded as explicit state passing (pure functions
from state and an environment describing network replies to results), and the
concurrent refresh coordinator as a small labelled transition system.
-/

namespace Baasix

/-! ## Data model (src/types.ts, src/storage/types.ts) -/

/-- Authentication mode of the SDK (src/types.ts): header based JWT or cookie. -/
inductive AuthMode
  | jwt
  | cookie
deriving DecidableEq, Repr

/-- AuthTokens (src/types.ts): access token, optional refresh token, optional
absolute expiry in epoch milliseconds. -/
structure AuthTokens where
  accessToken : String
  refreshToken : Option String
  expiresAt : Option Nat
deriving DecidableEq, Repr

/-- BaasixError (src/types.ts): message, HTTP status, optional code.  Field
level details are not needed by any claim and are omitted. -/
structure BaasixError where
  message : String
  status : Nat
  code : Option String
deriving DecidableEq, Repr

/-- The Credential Store: the five values the SDK keeps in the external
key-value storage under STORAGE_KEYS (src/storage/types.ts).  Each field is
the value stored under the corresponding key, `none` meaning absent. -/
structure Store where
  accessToken : Option String
  refreshToken : Option String
  tokenExpiry : Option Nat
  user : Option String
  tenant : Option String
deriving DecidableEq, Repr

/-- A store with every key absent. -/
def Store.empty : Store :=
  { accessToken := none, refreshToken := none, tokenExpiry := none,
    user := none, tenant := none }

/-- HttpClientConfig (src/client.ts): the fields the request pipeline reads.
`baseUrl`, `credentials` and callbacks are modelled outside the data
(callbacks as ghost event counters in results). -/
structure HttpClientConfig where
  authMode : AuthMode
  autoRefresh : Bool
  timeout : Nat
  token : Option String
  tenantId : Option String
  headers : List (String × String)
deriving DecidableEq, Repr

/-! ## Auth module (src/modules/auth.ts) -/

/-- AuthModule.clearAuth (auth.ts lines 115-122): removes the five stored
keys; removal of an absent key is a no-op of the storage adapter. -/
def clearAuth (_st : Store) : Store := Store.empty

/-- AuthModule.logout (auth.ts lines 191-200): calls the logout endpoint
ignoring any error, then clearAuth; the Boolean records that the SIGNED_OUT
auth state change is emitted.  The network call does not touch the store, so
its outcome is irrelevant to the resulting store. -/
def logout (st : Store) : Store × Bool := (clearAuth st, true)

/-! ## HttpClient: token reading and refresh (src/client.ts) -/

/-- HttpClient.getAccessToken (client.ts lines 77-90): a static config token
takes precedence; cookie mode reads no token; otherwise the stored one. -/
def getAccessToken (cfg : HttpClientConfig) (st : Store) : Option String :=
  match cfg.token with
  | some t => some t
  | none =>
      if cfg.authMode = AuthMode.cookie then none
      else st.accessToken

/-- HttpClient.isTokenExpired (client.ts lines 95-102): no stored expiry means
not expired; otherwise expired when `now >= expiry - 60 * 1000` (computed over
JS numbers, hence over Int here). -/
def isTokenExpired (now : Nat) (st : Store) : Bool :=
  match st.tokenExpiry with
  | none => false
  | some expiry => decide ((now : Int) ≥ (expiry : Int) - 60 * 1000)

/-- What the remote refresh endpoint replies for one refresh exchange:
either a JSON body (token, optional refreshToken, optional expiresIn in
seconds) with an ok status, or a non-ok HTTP status. -/
inductive RefreshReply
  | ok (token : String) (refreshToken : Option String) (expiresIn : Option Nat)
  | httpError (status : Nat)
deriving DecidableEq, Repr

/-- The body of HttpClient.refreshToken (client.ts lines 113-167) run by a
single caller: read the refresh token from storage; if absent in jwt mode fail
with NO_REFRESH_TOKEN before any network call; otherwise one network exchange
whose reply is given by `reply`; on non-ok status fail with REFRESH_FAILED
leaving the store unchanged; on success store the new access token, the new
refresh token when present, and the new absolute expiry when `expiresIn` is
present.  Returns (outcome, store after, whether a network refresh call was
issued).  Concurrent sharing of this body via `refreshPromise` is modelled
separately by the `Coord` transition system below. -/
def refreshTokenRun (cfg : HttpClientConfig) (now : Nat) (reply : RefreshReply)
    (st : Store) : Except BaasixError AuthTokens × Store × Bool :=
  if st.refreshToken = none ∧ cfg.authMode = AuthMode.jwt then
    (Except.error { message := "No refresh token available", status := 401,
                    code := some "NO_REFRESH_TOKEN" }, st, false)
  else
    match reply with
    | RefreshReply.httpError s =>
        (Except.error { message := "Token refresh failed", status := s,
                        code := some "REFRESH_FAILED" }, st, true)
    | RefreshReply.ok tok rt exp =>
        let tokens : AuthTokens :=
          { accessToken := tok, refreshToken := rt,
            expiresAt := exp.map (fun e => now + e * 1000) }
        let st1 : Store := { st with accessToken := some tok }
        let st2 : Store :=
          match rt with
          | some r => { st1 with refreshToken := some r }
          | none => st1
        let st3 : Store :=
          match tokens.expiresAt with
          | some t => { st2 with tokenExpiry := some t }
          | none => st2
        (Except.ok tokens, st3, true)

/-! ## HttpClient.buildHeaders (client.ts lines 175-211) -/

/-- Result of building headers: the header list, the store afterwards (a
proactive refresh may have written new tokens), whether a proactive refresh
was attempted, and how many network refresh calls it issued. -/
structure HeadersOut where
  headers : List (String × String)
  store : Store
  refreshAttempted : Bool
  refreshNetCalls : Nat
deriving DecidableEq, Repr

/-- The headers of client.ts lines 178-186: Content-Type, the configured
headers, and the tenant header when a tenant is configured. -/
def baseHeaders (cfg : HttpClientConfig) : List (String × String) :=
  let base0 : List (String × String) :=
    ("Content-Type", "application/json") :: cfg.headers
  match cfg.tenantId with
  | some t => base0 ++ [("X-Tenant-Id", t)]
  | none => base0

/-- HttpClient.buildHeaders: Content-Type plus configured headers, tenant
header when configured; with auth not skipped, in jwt mode, when autoRefresh
is on and the token is expiring soon, try a refresh and swallow its failure
(client.ts lines 196-202), then attach the currently stored (or static)
access token as a bearer header when present. -/
def buildHeaders (cfg : HttpClientConfig) (now : Nat) (reply : RefreshReply)
    (skipAuth : Bool) (st : Store) : HeadersOut :=
  let base : List (String × String) := baseHeaders cfg
  if skipAuth then
    { headers := base, store := st, refreshAttempted := false, refreshNetCalls := 0 }
  else if cfg.authMode = AuthMode.jwt then
    let att :=
      if cfg.autoRefresh && isTokenExpired now st then
        match refreshTokenRun cfg now reply st with
        | (_, st', n) => (st', true, if n then 1 else 0)
      else (st, false, 0)
    let hs : List (String × String) :=
      match getAccessToken cfg att.1 with
      | some t => base ++ [("Authorization", "Bearer " ++ t)]
      | none => base
    { headers := hs, store := att.1, refreshAttempted := att.2.1,
      refreshNetCalls := att.2.2 }
  else
    { headers := base, store := st, refreshAttempted := false, refreshNetCalls := 0 }

/-! ## HttpClient.request (client.ts lines 240-335) -/

/-- HttpClient.parseError (client.ts lines 216-235): a structured failure
carrying the status; body parsing, which only refines the message and code,
is not modelled. -/
def parseError (status : Nat) : BaasixError :=
  { message := "Request failed", status := status, code := none }

/-- Whether a status counts as `response.ok` for fetch (2xx). -/
def respOk (status : Nat) : Bool := decide (200 ≤ status ∧ status < 300)

/-- What one fetch attempt would produce when it is not aborted: a response
with a status, or a transport-level failure. -/
inductive FetchOutcome
  | resp (status : Nat)
  | netErr (msg : String)
deriving DecidableEq, Repr

/-- One fetch attempt as the environment sees it: how long the network takes
to produce the outcome, and the outcome itself. -/
structure FetchSpec where
  dur : Nat
  outcome : FetchOutcome
deriving DecidableEq, Repr

/-- Environment of one request call: the current time, the refresh endpoint
reply used by the proactive check inside the first buildHeaders, the first
fetch attempt, the reply used by the reactive 401-path refresh and its
duration, the reply used by the proactive check inside the retry buildHeaders,
and the retry fetch attempt. -/
structure RequestEnv where
  now : Nat
  proactiveReply : RefreshReply
  fetch1 : FetchSpec
  reactiveReply : RefreshReply
  refreshDur : Nat
  retryProactiveReply : RefreshReply
  fetch2 : FetchSpec
deriving DecidableEq, Repr

/-- Result of one request call, with ghost observables: the outcome, the store
afterwards, how many fetch attempts ran, the headers of the first attempt, the
headers of the retry when one ran, how many network refresh calls the two
proactive checks issued, how many the reactive 401 path issued, how many
retries ran, and how many times the onAuthError callback fired. -/
structure RequestResult where
  result : Except BaasixError Nat
  store : Store
  fetches : Nat
  headers1 : List (String × String)
  retryHeaders : Option (List (String × String))
  proactiveRefreshCalls : Nat
  reactiveRefreshCalls : Nat
  retries : Nat
  authErrorEvents : Nat
deriving Repr

/-- HttpClient.request: build headers (possibly proactively refreshing), run
the first fetch under an abort timer of `timeout ?? config.timeout`
milliseconds (the timer aborts the first fetch when it fires before the
response, surfacing a 408 TIMEOUT from the AbortError branch of lines
324-327); on a 401 with auth not skipped and autoRefresh on, refresh once,
rebuild headers and retry exactly once — the retry fetch (lines 274-282) is
issued WITHOUT the abort signal, so the timer does not abort it; any throw
inside that branch (refresh failure, non-ok retry, retry network error) fires
onAuthError once and is rethrown.  Other non-ok statuses become parseError
failures; a network error becomes NETWORK_ERROR. -/
def request (cfg : HttpClientConfig) (skipAuth : Bool) (timeoutOpt : Option Nat)
    (env : RequestEnv) (st : Store) : RequestResult :=
  let requestTimeout := timeoutOpt.getD cfg.timeout
  let h1 := buildHeaders cfg env.now env.proactiveReply skipAuth st
  if env.fetch1.dur > requestTimeout then
    -- the abort timer fired before the first response: AbortError, 408 TIMEOUT
    { result := Except.error { message := "Request timeout", status := 408,
                               code := some "TIMEOUT" },
      store := h1.store, fetches := 1, headers1 := h1.headers,
      retryHeaders := none, proactiveRefreshCalls := h1.refreshNetCalls,
      reactiveRefreshCalls := 0, retries := 0, authErrorEvents := 0 }
  else
    match env.fetch1.outcome with
    | FetchOutcome.netErr m =>
        { result := Except.error { message := m, status := 0,
                                   code := some "NETWORK_ERROR" },
          store := h1.store, fetches := 1, headers1 := h1.headers,
          retryHeaders := none, proactiveRefreshCalls := h1.refreshNetCalls,
          reactiveRefreshCalls := 0, retries := 0, authErrorEvents := 0 }
    | FetchOutcome.resp status =>
        if status = 401 && !skipAuth && cfg.autoRefresh then
          match refreshTokenRun cfg env.now env.reactiveReply h1.store with
          | (Except.error e, st', n) =>
              -- refresh failed: onAuthError fires, the refresh error surfaces
              { result := Except.error e, store := st', fetches := 1,
                headers1 := h1.headers, retryHeaders := none,
                proactiveRefreshCalls := h1.refreshNetCalls,
                reactiveRefreshCalls := if n then 1 else 0,
                retries := 0, authErrorEvents := 1 }
          | (Except.ok _, st', n) =>
              let h2 := buildHeaders cfg env.now env.retryProactiveReply false st'
              match env.fetch2.outcome with
              | FetchOutcome.netErr m =>
                  -- retry threw: onAuthError fires, outer catch wraps NETWORK_ERROR
                  { result := Except.error { message := m, status := 0,
                                             code := some "NETWORK_ERROR" },
                    store := h2.store, fetches := 2, headers1 := h1.headers,
                    retryHeaders := some h2.headers,
                    proactiveRefreshCalls := h1.refreshNetCalls + h2.refreshNetCalls,
                    reactiveRefreshCalls := if n then 1 else 0,
                    retries := 1, authErrorEvents := 1 }
              | FetchOutcome.resp s2 =>
                  if respOk s2 then
                    { result := Except.ok s2, store := h2.store, fetches := 2,
                      headers1 := h1.headers, retryHeaders := some h2.headers,
                      proactiveRefreshCalls := h1.refreshNetCalls + h2.refreshNetCalls,
                      reactiveRefreshCalls := if n then 1 else 0,
                      retries := 1, authErrorEvents := 0 }
                  else
                    -- a second non-ok (e.g. second 401) is NOT retried again:
                    -- parseError thrown, onAuthError fires, error surfaces
                    { result := Except.error (parseError s2), store := h2.store,
                      fetches := 2, headers1 := h1.headers,
                      retryHeaders := some h2.headers,
                      proactiveRefreshCalls := h1.refreshNetCalls + h2.refreshNetCalls,
                      reactiveRefreshCalls := if n then 1 else 0,
                      retries := 1, authErrorEvents := 1 }
        else if respOk status then
          { result := Except.ok status, store := h1.store, fetches := 1,
            headers1 := h1.headers, retryHeaders := none,
            proactiveRefreshCalls := h1.refreshNetCalls,
            reactiveRefreshCalls := 0, retries := 0, authErrorEvents := 0 }
        else
          { result := Except.error (parseError status), store := h1.store,
            fetches := 1, headers1 := h1.headers, retryHeaders := none,
            proactiveRefreshCalls := h1.refreshNetCalls,
            reactiveRefreshCalls := 0, retries := 0, authErrorEvents := 0 }

/-! ## Refresh Coordinator (client.ts lines 107-170)

`HttpClient.refreshToken` deduplicates concurrent refreshes through the
`refreshPromise` field: a caller finding it non-null returns the shared
promise (lines 109-111); otherwise it installs a new promise whose body is
straight-line code with exactly one fetch statement, and whose finally block
(lines 164-166) resets `refreshPromise` to null before the promise settles,
hence before any awaiting caller resumes.

JavaScript interleaves those suspended executions on one logical thread, so
we model an execution as a trace of atomic steps over a coordinator state.
Callers and refresh episodes are numbered; the check of `refreshPromise`
followed by its assignment (lines 109-113) has no suspension point in
between, so `start` is one step.  Each episode body is tracked by a phase:
`reading` (before the fetch; the NO_REFRESH_TOKEN throw can settle it from
here without a network call), `fetchedP` (the single fetch was issued),
`done` (settled, success or failure). -/

/-- The settled value of one refresh episode as callers observe it. -/
inductive RefreshResult
  | success (tokens : AuthTokens)
  | failure (e : BaasixError)
deriving DecidableEq, Repr

/-- Phase of one refresh episode body. -/
inductive EpPhase
  | reading
  | fetchedP
  | done
deriving DecidableEq, Repr

/-- Pointwise update of a function out of Nat. -/
def fupd {α : Type} (f : Nat → α) (k : Nat) (v : α) : Nat → α :=
  fun n => if n = k then v else f n

/-- Coordinator state: `pending` is the episode `refreshPromise` currently
holds (none when the field is null); `episodes` is the number of episodes
started so far (fresh ids); `phase` tracks each episode body; `netCallsOf`
counts the network refresh calls each episode issued; `settledV` the settled
outcome of each episode; `attachedV` which episode each caller shares;
`returnedV` what each caller returned with. -/
structure CoordState where
  pending : Option Nat
  episodes : Nat
  phase : Nat → Option EpPhase
  netCallsOf : Nat → Nat
  settledV : Nat → Option RefreshResult
  attachedV : Nat → Option Nat
  returnedV : Nat → Option RefreshResult

/-- Initial coordinator state: `refreshPromise` null, nothing started. -/
def CoordState.init : CoordState :=
  { pending := none, episodes := 0, phase := fun _ => none,
    netCallsOf := fun _ => 0, settledV := fun _ => none,
    attachedV := fun _ => none, returnedV := fun _ => none }

/-- State after caller `c` finds `refreshPromise` null, installs a fresh
shared promise and begins its body (lines 109-113; no suspension point lies
between the null check and the assignment). -/
def startF (c : Nat) (s : CoordState) : CoordState :=
  { s with pending := some s.episodes, episodes := s.episodes + 1,
           phase := fupd s.phase s.episodes (some EpPhase.reading),
           attachedV := fupd s.attachedV c (some s.episodes) }

/-- State after caller `c` finds `refreshPromise` non-null and returns the
existing shared promise (lines 109-111). -/
def attachF (c i : Nat) (s : CoordState) : CoordState :=
  { s with attachedV := fupd s.attachedV c (some i) }

/-- State after the pending episode body issues its single network refresh
call (lines 123-134). -/
def fireF (i : Nat) (s : CoordState) : CoordState :=
  { s with phase := fupd s.phase i (some EpPhase.fetchedP),
           netCallsOf := fupd s.netCallsOf i (s.netCallsOf i + 1) }

/-- State after the pending episode body finishes after its fetch with
outcome `r`; the finally block nulls `refreshPromise` before the promise
settles (lines 136-166). -/
def settleF (i : Nat) (r : RefreshResult) (s : CoordState) : CoordState :=
  { s with pending := none,
           phase := fupd s.phase i (some EpPhase.done),
           settledV := fupd s.settledV i (some r) }

/-- State after caller `c`, awaiting a settled episode, resumes and returns
its value. -/
def retF (c : Nat) (r : RefreshResult) (s : CoordState) : CoordState :=
  { s with returnedV := fupd s.returnedV c (some r) }

/-- One atomic step of the coordinator: a caller starts a fresh episode when
none is pending, a caller attaches to the pending episode, the pending
episode issues its one fetch, the pending episode settles (after its fetch,
or from the NO_REFRESH_TOKEN throw of lines 119-121 without any fetch), or a
caller returns the settled value of the episode it attached to. -/
inductive CoordStep : CoordState → CoordState → Prop
  | start (c : Nat) (s : CoordState)
      (hp : s.pending = none) (hc : s.attachedV c = none) :
      CoordStep s (startF c s)
  | attach (c i : Nat) (s : CoordState)
      (hp : s.pending = some i) (hc : s.attachedV c = none) :
      CoordStep s (attachF c i s)
  | fire (i : Nat) (s : CoordState)
      (hp : s.pending = some i) (hr : s.phase i = some EpPhase.reading) :
      CoordStep s (fireF i s)
  | settleFetched (i : Nat) (r : RefreshResult) (s : CoordState)
      (hp : s.pending = some i) (hf : s.phase i = some EpPhase.fetchedP) :
      CoordStep s (settleF i r s)
  | settleNoFetch (i : Nat) (e : BaasixError) (s : CoordState)
      (hp : s.pending = some i) (hr : s.phase i = some EpPhase.reading) :
      CoordStep s (settleF i (RefreshResult.failure e) s)
  | ret (c i : Nat) (r : RefreshResult) (s : CoordState)
      (ha : s.attachedV c = some i) (hs : s.settledV i = some r)
      (hr : s.returnedV c = none) :
      CoordStep s (retF c r s)

/-- States reachable from the initial coordinator state. -/
inductive CoordReach : CoordState → Prop
  | init : CoordReach CoordState.init
  | step {s s' : CoordState} : CoordReach s → CoordStep s s' → CoordReach s'

/-! ## Realtime module (src/modules/realtime.ts)

JavaScript `Map` objects keyed by strings are embedded as association lists
in insertion order: `Map.set` updates an existing key in place or appends a
new one, `Map.delete` removes the entry, lookups find the unique entry.
Socket listener tables are per event name; `socket.on` APPENDS a listener and
`socket.off(eventName)` with no callback removes all listeners of that event.
The three event names of one collection (`create`, `update`, `delete`) always
carry the same number of the module listener closures, so the model keeps one
counter per collection.  The unique callback ids that the source draws from a
timestamp and a random suffix (realtime.ts line 326) are modelled by a fresh
counter `nextCallbackId`. -/

/-- Lookup in an association list (JS Map.get). -/
def lookupA {β : Type} : List (String × β) → String → Option β
  | [], _ => none
  | (k, w) :: rest, c => if k = c then some w else lookupA rest c

/-- Update or append in an association list (JS Map.set). -/
def setA {β : Type} : List (String × β) → String → β → List (String × β)
  | [], c, v => [(c, v)]
  | (k, w) :: rest, c, v =>
      if k = c then (c, v) :: rest else (k, w) :: setA rest c v

/-- Removal from an association list (JS Map.delete). -/
def removeA {β : Type} : List (String × β) → String → List (String × β)
  | [], _ => []
  | (k, w) :: rest, c => if k = c then rest else (k, w) :: removeA rest c

/-- A message the realtime module emits on the socket. -/
inductive Msg
  | subscribeIntent (collection : String)
  | unsubscribeIntent (collection : String)
  | joinExecution (executionId : String)
deriving DecidableEq, Repr

/-- State of the RealtimeModule: the Subscription Registry (collection to
callback-id list, insertion ordered), the per collection count of transport
listener closures attached by setupCollectionListeners, the fresh callback id
counter, the ghost log of emitted messages, whether a socket object exists
(`this.socket !== null`) and whether it is connected, the Execution Channel
Registry, and the ghost log of connection-state notifications. -/
structure RealtimeState where
  subscriptions : List (String × List Nat)
  listeners : List (String × Nat)
  nextCallbackId : Nat
  sent : List Msg
  socketExists : Bool
  socketConnected : Bool
  workflowCallbacks : List (String × List Nat)
  connNotifications : List Bool
deriving DecidableEq, Repr

/-- A fresh module state holding a connected socket (after `connect()`
resolved), with no subscriptions. -/
def RealtimeState.connected : RealtimeState :=
  { subscriptions := [], listeners := [], nextCallbackId := 0, sent := [],
    socketExists := true, socketConnected := true, workflowCallbacks := [],
    connNotifications := [] }

/-- The callback ids currently registered for a collection. -/
def registeredIds (c : String) (s : RealtimeState) : List Nat :=
  (lookupA s.subscriptions c).getD []

/-- RealtimeModule.subscribeOnServer (realtime.ts lines 411-419): emits the
subscribe intent when the socket exists and is connected; a negative
acknowledgment is only logged, so it does not appear in the state. -/
def subscribeOnServer (c : String) (s : RealtimeState) : RealtimeState :=
  if s.socketExists && s.socketConnected then
    { s with sent := s.sent ++ [Msg.subscribeIntent c] }
  else s

/-- RealtimeModule.unsubscribeOnServer (realtime.ts lines 421-425). -/
def unsubscribeOnServer (c : String) (s : RealtimeState) : RealtimeState :=
  if s.socketExists && s.socketConnected then
    { s with sent := s.sent ++ [Msg.unsubscribeIntent c] }
  else s

/-- RealtimeModule.setupCollectionListeners (realtime.ts lines 427-437):
no-op without a socket; otherwise `socket.on` appends one more handler
closure per event name of the collection. -/
def setupCollectionListeners (c : String) (s : RealtimeState) : RealtimeState :=
  if s.socketExists then
    { s with listeners := setA s.listeners c ((lookupA s.listeners c).getD 0 + 1) }
  else s

/-- RealtimeModule.removeCollectionListeners (realtime.ts lines 439-447):
`socket.off(eventName)` without a callback removes ALL listeners of the
event. -/
def removeCollectionListeners (c : String) (s : RealtimeState) : RealtimeState :=
  if s.socketExists then
    { s with listeners := setA s.listeners c 0 }
  else s

/-- RealtimeModule.subscribe (realtime.ts lines 317-361): draw a fresh
callback id; if the collection has no record yet, create it, send the
subscribe intent and attach the transport listeners; then add the callback.
Returns the new state and the callback id (the unsubscribe handle is the pair
of the collection and this id, run by `unsubscribeRun`). -/
def subscribe (c : String) (s : RealtimeState) : RealtimeState × Nat :=
  let id := s.nextCallbackId
  let s1 :=
    match lookupA s.subscriptions c with
    | none =>
        let t := { s with subscriptions := setA s.subscriptions c [] }
        setupCollectionListeners c (subscribeOnServer c t)
    | some _ => s
  let cbs := (lookupA s1.subscriptions c).getD []
  ({ s1 with subscriptions := setA s1.subscriptions c (cbs ++ [id]),
             nextCallbackId := id + 1 }, id)

/-- The unsubscribe closure returned by subscribe (realtime.ts lines
348-360): look the collection up; delete exactly the own callback id; when
this empties the callback set, send the unsubscribe intent, detach the
transport listeners and delete the record. -/
def unsubscribeRun (c : String) (id : Nat) (s : RealtimeState) : RealtimeState :=
  match lookupA s.subscriptions c with
  | none => s
  | some cbs =>
      let cbs' := cbs.erase id
      if cbs'.length = 0 then
        let s1 := removeCollectionListeners c (unsubscribeOnServer c s)
        { s1 with subscriptions := removeA s1.subscriptions c }
      else
        { s with subscriptions := setA s.subscriptions c cbs' }

/-- RealtimeModule.resubscribeAll (realtime.ts lines 462-467): for every
registered collection, re-send the subscribe intent and re-attach the
transport listeners; the callback sets are not touched. -/
def resubscribeAll (s : RealtimeState) : RealtimeState :=
  (s.subscriptions.map Prod.fst).foldl
    (fun t c => setupCollectionListeners c (subscribeOnServer c t)) s

/-- RealtimeModule.disconnect (realtime.ts lines 259-266): tear the socket
down when one exists (its listener table is discarded with it) and clear both
the Subscription Registry and the Execution Channel Registry. -/
def disconnectRun (s : RealtimeState) : RealtimeState :=
  let s1 :=
    if s.socketExists then
      { s with socketExists := false, socketConnected := false, listeners := [] }
    else s
  { s1 with subscriptions := [], workflowCallbacks := [] }

/-- The transport-reported disconnect handler (realtime.ts lines 199-202):
the socket reports itself disconnected and the connection-state listeners are
notified; nothing else is touched. -/
def transportDisconnect (s : RealtimeState) : RealtimeState :=
  { s with socketConnected := false,
           connNotifications := s.connNotifications ++ [false] }

/-- The transport-reported reconnect handler (realtime.ts lines 211-217):
the socket is connected again, resubscribeAll runs, then the
connection-state listeners are notified. -/
def transportReconnect (s : RealtimeState) : RealtimeState :=
  let s1 := resubscribeAll { s with socketConnected := true }
  { s1 with connNotifications := s1.connNotifications ++ [true] }

/-- What a callback does when invoked during dispatch: return normally, throw
(the dispatcher catches it, realtime.ts lines 453-457), or invoke the
unsubscribe handle of callback `target` of the same collection.  Behaviour is
keyed by the callback id. -/
inductive CbAction
  | ok
  | throwErr
  | removeCb (target : Nat)
deriving DecidableEq, Repr

/-- Effect of invoking one callback on the registry state. -/
def applyAction (env : Nat → CbAction) (c : String) (id : Nat)
    (s : RealtimeState) : RealtimeState :=
  match env id with
  | CbAction.ok => s
  | CbAction.throwErr => s
  | CbAction.removeCb j => unsubscribeRun c j s

/-- `Map.forEach` over the live callback map (realtime.ts line 452): entries
are visited in insertion order, an entry deleted before being reached is not
visited, and the callback actions here can only delete entries, never add
them.  Returns the state after dispatch and the invocation log in order. -/
def dispatchList (env : Nat → CbAction) (c : String) :
    List Nat → RealtimeState → RealtimeState × List Nat
  | [], s => (s, [])
  | id :: rest, s =>
      if id ∈ registeredIds c s then
        let p := dispatchList env c rest (applyAction env c id s)
        (p.1, id :: p.2)
      else
        dispatchList env c rest s

/-- RealtimeModule.handleCollectionEvent (realtime.ts lines 449-460): look
the subscription up and dispatch to its callbacks over the live map. -/
def handleCollectionEvent (env : Nat → CbAction) (c : String)
    (s : RealtimeState) : RealtimeState × List Nat :=
  match lookupA s.subscriptions c with
  | none => (s, [])
  | some cbs => dispatchList env c cbs s

/-- Run the handler closure `n` times in sequence, concatenating invocation
logs. -/
def iterListeners (env : Nat → CbAction) (c : String) :
    Nat → RealtimeState → RealtimeState × List Nat
  | 0, s => (s, [])
  | n + 1, s =>
      let p := handleCollectionEvent env c s
      let q := iterListeners env c n p.1
      (q.1, p.2 ++ q.2)

/-- One inbound `collection:event` message from the server: the transport
invokes every listener closure attached under that event name; each closure
is the line 433 handler, which runs handleCollectionEvent. -/
def deliverEvent (env : Nat → CbAction) (c : String) (s : RealtimeState) :
    RealtimeState × List Nat :=
  iterListeners env c ((lookupA s.listeners c).getD 0) s

/-- Registry sanity invariant: every registered record is nonempty, has no
duplicate callback ids, and holds only ids below the fresh counter.  It holds
for the states the module actually reaches: a record is created together with
its first callback inside one synchronous subscribe call, emptied records are
deleted at once, and ids are never reused. -/
def Good (s : RealtimeState) : Prop :=
  (s.subscriptions.map Prod.fst).Nodup ∧
  ∀ c cbs, lookupA s.subscriptions c = some cbs →
    cbs ≠ [] ∧ cbs.Nodup ∧ ∀ id ∈ cbs, id < s.nextCallbackId

/-! ## Association list lemmas -/

theorem lookupA_setA_self {β : Type} (l : List (String × β)) (c : String) (v : β) :
    lookupA (setA l c v) c = some v := by
  induction l with
  | nil => simp [setA, lookupA]
  | cons kw rest ih =>
      obtain ⟨k, w⟩ := kw
      by_cases h : k = c
      · simp [setA, h, lookupA]
      · simp [setA, h, lookupA, ih]

theorem lookupA_setA_ne {β : Type} (l : List (String × β)) (c c2 : String)
    (v : β) (h : c2 ≠ c) : lookupA (setA l c v) c2 = lookupA l c2 := by
  have hcc2 : ¬ c = c2 := fun hh => h hh.symm
  induction l with
  | nil => simp [setA, lookupA, hcc2]
  | cons kw rest ih =>
      obtain ⟨k, w⟩ := kw
      by_cases hk : k = c
      · subst hk
        simp [setA, lookupA, hcc2]
      · simp [setA, hk, lookupA, ih]

theorem setA_self_of_lookup {β : Type} {l : List (String × β)} {c : String}
    {v : β} (h : lookupA l c = some v) : setA l c v = l := by
  induction l with
  | nil => simp [lookupA] at h
  | cons kw rest ih =>
      obtain ⟨k, w⟩ := kw
      by_cases hk : k = c
      · subst hk
        simp [lookupA] at h
        simp [setA, h]
      · simp [lookupA, hk] at h
        simp [setA, hk, ih h]

theorem lookupA_eq_none_of_not_mem_keys {β : Type} {l : List (String × β)}
    {c : String} (h : c ∉ l.map Prod.fst) : lookupA l c = none := by
  induction l with
  | nil => rfl
  | cons kw rest ih =>
      obtain ⟨k, w⟩ := kw
      have hk : ¬ k = c := by
        intro hh
        exact h (by simp [hh])
      have hrest : c ∉ rest.map Prod.fst := by
        intro hh
        exact h (by simp [hh])
      simp [lookupA, hk, ih hrest]

theorem lookupA_removeA_self {β : Type} {l : List (String × β)} {c : String}
    (h : (l.map Prod.fst).Nodup) : lookupA (removeA l c) c = none := by
  induction l with
  | nil => rfl
  | cons kw rest ih =>
      obtain ⟨k, w⟩ := kw
      rw [List.map_cons] at h
      have h1 : k ∉ rest.map Prod.fst := (List.nodup_cons.mp h).1
      have h2 : (rest.map Prod.fst).Nodup := (List.nodup_cons.mp h).2
      by_cases hk : k = c
      · subst hk
        simpa [removeA] using lookupA_eq_none_of_not_mem_keys h1
      · simp [removeA, hk, lookupA, ih h2]

theorem lookupA_removeA_ne {β : Type} (l : List (String × β)) (c c2 : String)
    (h : c2 ≠ c) : lookupA (removeA l c) c2 = lookupA l c2 := by
  have hcc2 : ¬ c = c2 := fun hh => h hh.symm
  induction l with
  | nil => rfl
  | cons kw rest ih =>
      obtain ⟨k, w⟩ := kw
      by_cases hk : k = c
      · subst hk
        simp [removeA, lookupA, hcc2]
      · simp [removeA, hk, lookupA, ih]

/-! ## Helper lemmas for the refresh exchange -/

/-- A refresh exchange answered with a non-ok status leaves the store
unchanged. -/
theorem refreshTokenRun_httpError (cfg : HttpClientConfig) (now errStatus : Nat)
    (st : Store) :
    (refreshTokenRun cfg now (RefreshReply.httpError errStatus) st).2.1 = st := by
  unfold refreshTokenRun
  split <;> rfl

/-- A successful refresh exchange stores the new access token. -/
theorem refreshTokenRun_ok_accessToken {cfg : HttpClientConfig} {now : Nat}
    {reply : RefreshReply} {st : Store} {tks : AuthTokens} {st' : Store}
    {b : Bool}
    (h : refreshTokenRun cfg now reply st = (Except.ok tks, st', b)) :
    st'.accessToken = some tks.accessToken := by
  unfold refreshTokenRun at h
  split at h
  · simp at h
  · cases reply with
    | httpError s => simp at h
    | ok tok rt exp =>
        simp only [Prod.mk.injEq] at h
        obtain ⟨h1, h2, _⟩ := h
        have htok : tok = tks.accessToken := by
          have := Except.ok.inj h1
          rw [← this]
        rw [← h2, ← htok]
        cases exp <;> cases rt <;> rfl

/-! ## Projection lemmas for the realtime operations -/

@[simp] theorem subscribeOnServer_subscriptions (c : String) (s : RealtimeState) :
    (subscribeOnServer c s).subscriptions = s.subscriptions := by
  unfold subscribeOnServer
  split <;> rfl

@[simp] theorem unsubscribeOnServer_subscriptions (c : String) (s : RealtimeState) :
    (unsubscribeOnServer c s).subscriptions = s.subscriptions := by
  unfold unsubscribeOnServer
  split <;> rfl

@[simp] theorem setupCollectionListeners_subscriptions (c : String) (s : RealtimeState) :
    (setupCollectionListeners c s).subscriptions = s.subscriptions := by
  unfold setupCollectionListeners
  split <;> rfl

@[simp] theorem removeCollectionListeners_subscriptions (c : String) (s : RealtimeState) :
    (removeCollectionListeners c s).subscriptions = s.subscriptions := by
  unfold removeCollectionListeners
  split <;> rfl

@[simp] theorem subscribeOnServer_nextCallbackId (c : String) (s : RealtimeState) :
    (subscribeOnServer c s).nextCallbackId = s.nextCallbackId := by
  unfold subscribeOnServer
  split <;> rfl

@[simp] theorem setupCollectionListeners_nextCallbackId (c : String) (s : RealtimeState) :
    (setupCollectionListeners c s).nextCallbackId = s.nextCallbackId := by
  unfold setupCollectionListeners
  split <;> rfl

@[simp] theorem unsubscribeOnServer_listeners (c : String) (s : RealtimeState) :
    (unsubscribeOnServer c s).listeners = s.listeners := by
  unfold unsubscribeOnServer
  split <;> rfl

@[simp] theorem subscribeOnServer_listeners (c : String) (s : RealtimeState) :
    (subscribeOnServer c s).listeners = s.listeners := by
  unfold subscribeOnServer
  split <;> rfl

@[simp] theorem setupCollectionListeners_sent (c : String) (s : RealtimeState) :
    (setupCollectionListeners c s).sent = s.sent := by
  unfold setupCollectionListeners
  split <;> rfl

@[simp] theorem removeCollectionListeners_sent (c : String) (s : RealtimeState) :
    (removeCollectionListeners c s).sent = s.sent := by
  unfold removeCollectionListeners
  split <;> rfl

/-- The registry after a subscribe that created the record. -/
theorem subscribe_subscriptions_none {s : RealtimeState} {c : String}
    (h : lookupA s.subscriptions c = none) :
    (subscribe c s).1.subscriptions
      = setA (setA s.subscriptions c []) c [s.nextCallbackId] := by
  unfold subscribe
  rw [h]
  simp [lookupA_setA_self]

/-- The registry after a subscribe to an existing record. -/
theorem subscribe_subscriptions_some {s : RealtimeState} {c : String}
    {cbs : List Nat} (h : lookupA s.subscriptions c = some cbs) :
    (subscribe c s).1.subscriptions
      = setA s.subscriptions c (cbs ++ [s.nextCallbackId]) := by
  unfold subscribe
  rw [h]
  simp [h]

/-! ## Dispatch lemmas -/

/-- The invocation log of a dispatch is a sublist of the iterated id list:
only ids of the begin-of-dispatch snapshot are invoked, in snapshot order,
each at most once. -/
theorem dispatchList_sublist (env : Nat → CbAction) (c : String)
    (l : List Nat) (s : RealtimeState) :
    (dispatchList env c l s).2.Sublist l := by
  induction l generalizing s with
  | nil => simp [dispatchList]
  | cons id rest ih =>
      unfold dispatchList
      by_cases h : id ∈ registeredIds c s
      · simpa [h] using List.Sublist.cons₂ id (ih (applyAction env c id s))
      · simpa [h] using List.Sublist.cons id (ih s)

/-- When every callback of the snapshot only returns or throws (none removes
a callback), dispatch invokes every iterated id exactly once and leaves the
state unchanged: a thrown error is isolated per callback. -/
theorem dispatchList_pure (env : Nat → CbAction) (c : String)
    (cbs : List Nat) (s : RealtimeState)
    (hsub : lookupA s.subscriptions c = some cbs)
    (hpure : ∀ id ∈ cbs, env id = CbAction.ok ∨ env id = CbAction.throwErr) :
    ∀ l : List Nat, (∀ id ∈ l, id ∈ cbs) → dispatchList env c l s = (s, l) := by
  intro l
  induction l with
  | nil => intro _; rfl
  | cons id rest ih =>
      intro hmem
      have hidcbs : id ∈ cbs := hmem id (by simp)
      have hreg : id ∈ registeredIds c s := by
        unfold registeredIds
        rw [hsub]
        simpa using hidcbs
      have happ : applyAction env c id s = s := by
        rcases hpure id hidcbs with h | h <;> simp [applyAction, h]
      have hrest := ih (fun j hj => hmem j (by simp [hj]))
      unfold dispatchList
      rw [if_pos hreg, happ, hrest]

/-- The sent log after subscribeOnServer on a live connected socket. -/
theorem subscribeOnServer_sent_connected {s : RealtimeState} (c : String)
    (hex : s.socketExists = true) (hconn : s.socketConnected = true) :
    (subscribeOnServer c s).sent = s.sent ++ [Msg.subscribeIntent c] := by
  unfold subscribeOnServer
  simp [hex, hconn]

/-- The sent log after unsubscribeOnServer on a live connected socket. -/
theorem unsubscribeOnServer_sent_connected {s : RealtimeState} (c : String)
    (hex : s.socketExists = true) (hconn : s.socketConnected = true) :
    (unsubscribeOnServer c s).sent = s.sent ++ [Msg.unsubscribeIntent c] := by
  unfold unsubscribeOnServer
  simp [hex, hconn]

/-- The listener table after setupCollectionListeners on an existing socket. -/
theorem setupCollectionListeners_listeners {s : RealtimeState} (c : String)
    (hex : s.socketExists = true) :
    (setupCollectionListeners c s).listeners
      = setA s.listeners c ((lookupA s.listeners c).getD 0 + 1) := by
  unfold setupCollectionListeners
  simp [hex]

/-- The listener table after removeCollectionListeners on an existing socket. -/
theorem removeCollectionListeners_listeners {s : RealtimeState} (c : String)
    (hex : s.socketExists = true) :
    (removeCollectionListeners c s).listeners = setA s.listeners c 0 := by
  unfold removeCollectionListeners
  simp [hex]

/-- The unsubscribe closure when the erase leaves other callbacks behind. -/
theorem unsubscribeRun_eq_erase {s : RealtimeState} {c : String}
    {cbs : List Nat} {id : Nat} (h : lookupA s.subscriptions c = some cbs)
    (hz : cbs.erase id ≠ []) :
    unsubscribeRun c id s
      = { s with subscriptions := setA s.subscriptions c (cbs.erase id) } := by
  unfold unsubscribeRun
  rw [h]
  simp only []
  rw [if_neg (fun hh => hz (List.length_eq_zero.mp hh))]

/-- The unsubscribe closure when the erase empties the callback set. -/
theorem unsubscribeRun_eq_delete {s : RealtimeState} {c : String}
    {cbs : List Nat} {id : Nat} (h : lookupA s.subscriptions c = some cbs)
    (hz : cbs.erase id = []) :
    unsubscribeRun c id s
      = { removeCollectionListeners c (unsubscribeOnServer c s) with
          subscriptions :=
            removeA (removeCollectionListeners c
              (unsubscribeOnServer c s)).subscriptions c } := by
  unfold unsubscribeRun
  rw [h]
  simp only []
  rw [if_pos (by rw [hz]; rfl)]

/-- The unsubscribe closure is a no-op when its own callback id is not
registered and the record for the collection, if present, is nonempty. -/
theorem unsubscribeRun_noop (c : String) (id : Nat) (s : RealtimeState)
    (h : ∀ cbs, lookupA s.subscriptions c = some cbs → id ∉ cbs ∧ cbs ≠ []) :
    unsubscribeRun c id s = s := by
  unfold unsubscribeRun
  cases hl : lookupA s.subscriptions c with
  | none => rfl
  | some cbs =>
      obtain ⟨hnm, hne⟩ := h cbs hl
      have her : cbs.erase id = cbs := List.erase_of_not_mem hnm
      simp only [her]
      rw [if_neg (fun hh => hne (List.length_eq_zero.mp hh))]
      rw [setA_self_of_lookup hl]

/-! ## Claims about the realtime connection lifecycle -/

/-- Claim C6: explicit `disconnect()` clears both the Subscription Registry
and the Execution Channel Registry and tears the transport down, while a
transport-reported disconnect only notifies the connection-state listeners
and leaves the Subscription Registry, the listener table, the Execution
Channel Registry and the message log unchanged, so a later reconnect can
replay them. -/
theorem disconnect_clears_transport_disconnect_preserves (s : RealtimeState) :
    ((disconnectRun s).subscriptions = [] ∧
     (disconnectRun s).workflowCallbacks = [] ∧
     (disconnectRun s).socketExists = false) ∧
    ((transportDisconnect s).subscriptions = s.subscriptions ∧
     (transportDisconnect s).listeners = s.listeners ∧
     (transportDisconnect s).workflowCallbacks = s.workflowCallbacks ∧
     (transportDisconnect s).sent = s.sent ∧
     (transportDisconnect s).connNotifications = s.connNotifications ++ [false]) := by
  unfold disconnectRun transportDisconnect
  by_cases h : s.socketExists <;> simp [h]

/-- Claim C8 (amended): logout erases every stored credential value
unconditionally, but a fatal refresh failure leaves the credential store
unchanged: the REFRESH_FAILED error is surfaced without erasing anything. -/
theorem logout_clears_refresh_failure_preserves :
    (∀ st : Store,
      (logout st).1.accessToken = none ∧ (logout st).1.refreshToken = none ∧
      (logout st).1.tokenExpiry = none ∧ (logout st).1.tenant = none ∧
      (logout st).1.user = none) ∧
    (∀ (cfg : HttpClientConfig) (now errStatus : Nat) (st : Store),
      (refreshTokenRun cfg now (RefreshReply.httpError errStatus) st).2.1 = st) := by
  constructor
  · intro st
    exact ⟨rfl, rfl, rfl, rfl, rfl⟩
  · intro cfg now errStatus st
    unfold refreshTokenRun
    split
    · rfl
    · rfl

/-- Claim C8 counterexample: a fatal refresh failure (the refresh endpoint
answers 500, REFRESH_FAILED is thrown, client.ts lines 136-138) does NOT
erase the four credential values: the full store survives untouched. -/
theorem refresh_failure_keeps_tokens_counterexample :
    (refreshTokenRun
        { authMode := AuthMode.jwt, autoRefresh := true, timeout := 30000,
          token := none, tenantId := none, headers := [] }
        0 (RefreshReply.httpError 500)
        { accessToken := some "a", refreshToken := some "r",
          tokenExpiry := some 99, user := some "u", tenant := some "t" }).2.1
      = { accessToken := some "a", refreshToken := some "r",
          tokenExpiry := some 99, user := some "u", tenant := some "t" } ∧
    (refreshTokenRun
        { authMode := AuthMode.jwt, autoRefresh := true, timeout := 30000,
          token := none, tenantId := none, headers := [] }
        0 (RefreshReply.httpError 500)
        { accessToken := some "a", refreshToken := some "r",
          tokenExpiry := some 99, user := some "u", tenant := some "t" }).1
      = Except.error { message := "Token refresh failed", status := 500,
                       code := some "REFRESH_FAILED" } :=
  ⟨rfl, rfl⟩

/-- Claim C3 (code bug): after a transport disconnect/reconnect cycle, the
reconnect-triggered replay re-sends the subscribe intent for the registered
collection and leaves the callback set untouched — but
setupCollectionListeners re-attaches a SECOND handler closure to the same
socket object (`socket.on` appends, realtime.ts line 433), so one inbound
event is now dispatched twice, and the single registered callback is invoked
twice instead of exactly once. -/
theorem replay_duplicates_event_delivery :
    ((transportReconnect (transportDisconnect
        (subscribe "products" RealtimeState.connected).1)).subscriptions
      = (subscribe "products" RealtimeState.connected).1.subscriptions) ∧
    ((transportReconnect (transportDisconnect
        (subscribe "products" RealtimeState.connected).1)).sent
      = [Msg.subscribeIntent "products", Msg.subscribeIntent "products"]) ∧
    ((deliverEvent (fun _ => CbAction.ok) "products"
        (transportReconnect (transportDisconnect
          (subscribe "products" RealtimeState.connected).1))).2 = [0, 0]) :=
  ⟨rfl, rfl, rfl⟩

/-! ## Claims about event dispatch -/

/-- Claim C4 (amended): dispatch iterates the live callback map in insertion
order.  No callback is ever invoked twice for one event; only callbacks of
the begin-of-dispatch snapshot are invoked, in snapshot order; and when no
callback removes another during the dispatch, every callback of the snapshot
is invoked exactly once and the registry is unchanged, even when some of them
throw — a thrown error is isolated per callback and never prevents the
remaining callbacks from being invoked.  (A removal during dispatch CAN cause
a not-yet-reached callback of the snapshot to be skipped; that is the part of
the original claim refuted by the counterexample.) -/
theorem dispatch_live_iteration (env : Nat → CbAction) (c : String)
    (s : RealtimeState) (cbs : List Nat)
    (hsub : lookupA s.subscriptions c = some cbs) (hnodup : cbs.Nodup) :
    (handleCollectionEvent env c s).2.Nodup ∧
    (handleCollectionEvent env c s).2.Sublist cbs ∧
    ((∀ id ∈ cbs, env id = CbAction.ok ∨ env id = CbAction.throwErr) →
      handleCollectionEvent env c s = (s, cbs)) := by
  have hh : handleCollectionEvent env c s = dispatchList env c cbs s := by
    unfold handleCollectionEvent
    rw [hsub]
  refine ⟨?_, ?_, ?_⟩
  · rw [hh]
    exact hnodup.sublist (dispatchList_sublist env c cbs s)
  · rw [hh]
    exact dispatchList_sublist env c cbs s
  · intro hp
    rw [hh]
    exact dispatchList_pure env c cbs s hsub hp cbs (fun _ h => h)

/-- A connected module state with two callbacks (ids 0 and 1) registered on
collection "c". -/
def sTwoCb : RealtimeState :=
  (subscribe "c" (subscribe "c" RealtimeState.connected).1).1

/-- Callback 0 throws, callback 1 returns normally. -/
def envThrow : Nat → CbAction :=
  fun i => if i = 0 then CbAction.throwErr else CbAction.ok

theorem dispatch_live_iteration_witness :
    handleCollectionEvent envThrow "c" sTwoCb = (sTwoCb, [0, 1]) :=
  (dispatch_live_iteration envThrow "c" sTwoCb [0, 1] rfl (by decide)).2.2
    (by
      intro id h
      by_cases h0 : id = 0
      · exact Or.inr (by simp [envThrow, h0])
      · exact Or.inl (by simp [envThrow, h0]))

/-- Claim C4 counterexample: with callbacks 0 and 1 registered (the snapshot
at dispatch begin is [0, 1]), callback 0 unsubscribing callback 1 during
dispatch causes callback 1 to be skipped: the invocation log is [0], not
[0, 1] as the claim requires. -/
theorem dispatch_removal_skips_counterexample :
    registeredIds "c" sTwoCb = [0, 1] ∧
    (handleCollectionEvent
        (fun i => if i = 0 then CbAction.removeCb 1 else CbAction.ok)
        "c" sTwoCb).2 = [0] :=
  ⟨rfl, rfl⟩

/-! ## Claims about the subscription registry -/

/-- Claim C5: the first subscribe to a collection creates the record holding
exactly the new callback, sends one subscribe intent and attaches the
transport listeners; every later subscribe only appends its callback and
sends nothing; the unsubscribe handle removes exactly its own callback and
touches no other collection, and only when this empties the callback set is
the record deleted, one unsubscribe intent sent and the listeners detached. -/
theorem subscribe_refcount (s : RealtimeState) (c : String)
    (hex : s.socketExists = true) (hconn : s.socketConnected = true)
    (hg : Good s) :
    (lookupA s.subscriptions c = none →
      registeredIds c (subscribe c s).1 = [s.nextCallbackId] ∧
      (subscribe c s).1.sent = s.sent ++ [Msg.subscribeIntent c] ∧
      (lookupA (subscribe c s).1.listeners c).getD 0
        = (lookupA s.listeners c).getD 0 + 1) ∧
    (∀ cbs, lookupA s.subscriptions c = some cbs →
      registeredIds c (subscribe c s).1 = cbs ++ [s.nextCallbackId] ∧
      (subscribe c s).1.sent = s.sent ∧
      (subscribe c s).1.listeners = s.listeners) ∧
    (∀ cbs id, lookupA s.subscriptions c = some cbs → id ∈ cbs →
      (∀ c2, c2 ≠ c →
        lookupA (unsubscribeRun c id s).subscriptions c2
          = lookupA s.subscriptions c2) ∧
      (cbs.erase id ≠ [] →
        registeredIds c (unsubscribeRun c id s) = cbs.erase id ∧
        (unsubscribeRun c id s).sent = s.sent ∧
        (unsubscribeRun c id s).listeners = s.listeners) ∧
      (cbs.erase id = [] →
        lookupA (unsubscribeRun c id s).subscriptions c = none ∧
        (unsubscribeRun c id s).sent = s.sent ++ [Msg.unsubscribeIntent c] ∧
        (lookupA (unsubscribeRun c id s).listeners c).getD 0 = 0)) := by
  obtain ⟨hkeys, hrec⟩ := hg
  refine ⟨?_, ?_, ?_⟩
  · intro h
    refine ⟨?_, ?_, ?_⟩
    · unfold registeredIds
      rw [subscribe_subscriptions_none h, lookupA_setA_self]
      rfl
    · unfold subscribe
      rw [h]
      simp [subscribeOnServer, setupCollectionListeners, hex, hconn]
    · unfold subscribe
      rw [h]
      simp [subscribeOnServer, setupCollectionListeners, hex, hconn,
            lookupA_setA_self]
  · intro cbs h
    refine ⟨?_, ?_, ?_⟩
    · unfold registeredIds
      rw [subscribe_subscriptions_some h, lookupA_setA_self]
      rfl
    · unfold subscribe
      rw [h]
    · unfold subscribe
      rw [h]
  · intro cbs id h hid
    refine ⟨?_, ?_, ?_⟩
    · intro c2 hc2
      by_cases hz : cbs.erase id = []
      · rw [unsubscribeRun_eq_delete h hz]
        show lookupA (removeA (removeCollectionListeners c
          (unsubscribeOnServer c s)).subscriptions c) c2 = _
        rw [removeCollectionListeners_subscriptions,
            unsubscribeOnServer_subscriptions,
            lookupA_removeA_ne _ _ _ hc2]
      · rw [unsubscribeRun_eq_erase h hz]
        show lookupA (setA s.subscriptions c (cbs.erase id)) c2 = _
        rw [lookupA_setA_ne _ _ _ _ hc2]
    · intro hz
      rw [unsubscribeRun_eq_erase h hz]
      refine ⟨?_, rfl, rfl⟩
      unfold registeredIds
      show (lookupA (setA s.subscriptions c (cbs.erase id)) c).getD [] = _
      rw [lookupA_setA_self]
      rfl
    · intro hz
      rw [unsubscribeRun_eq_delete h hz]
      refine ⟨?_, ?_, ?_⟩
      · show lookupA (removeA (removeCollectionListeners c
          (unsubscribeOnServer c s)).subscriptions c) c = none
        rw [removeCollectionListeners_subscriptions,
            unsubscribeOnServer_subscriptions]
        exact lookupA_removeA_self hkeys
      · show (removeCollectionListeners c (unsubscribeOnServer c s)).sent = _
        rw [removeCollectionListeners_sent,
            unsubscribeOnServer_sent_connected c hex hconn]
      · show (lookupA (removeCollectionListeners c
          (unsubscribeOnServer c s)).listeners c).getD 0 = 0
        have hex2 : (unsubscribeOnServer c s).socketExists = true := by
          unfold unsubscribeOnServer
          split <;> simp [hex]
        rw [removeCollectionListeners_listeners c hex2, lookupA_setA_self]
        rfl

/-- Callback ids registered in `sTwoCb` are sane: the claims about repeated
unsubscription instantiate their invariant hypothesis with this. -/
theorem good_sTwoCb : Good sTwoCb := by
  constructor
  · decide
  · intro c cbs h
    by_cases hc : "c" = c
    · have hx : lookupA sTwoCb.subscriptions c = some [0, 1] := by
        rw [← hc]
        rfl
      rw [hx] at h
      have : cbs = [0, 1] := (Option.some.inj h).symm
      subst this
      refine ⟨by decide, by decide, ?_⟩
      intro id hid
      have h2 : id = 0 ∨ id = 1 := by simpa using hid
      have hn : sTwoCb.nextCallbackId = 2 := rfl
      rw [hn]
      rcases h2 with h2 | h2 <;> simp [h2]
    · have hx : lookupA sTwoCb.subscriptions c = none := by
        show (if "c" = c then some [0, 1] else none) = none
        rw [if_neg hc]
      rw [hx] at h
      cases h

theorem subscribe_refcount_witness :
    registeredIds "c" (unsubscribeRun "c" 0 sTwoCb) = [1] ∧
    (unsubscribeRun "c" 0 sTwoCb).sent = sTwoCb.sent ∧
    (unsubscribeRun "c" 0 sTwoCb).listeners = sTwoCb.listeners :=
  ((subscribe_refcount sTwoCb "c" rfl rfl good_sTwoCb).2.2 [0, 1] 0 rfl
      (by decide)).2.1 (by decide)

/-- Claim C10: the unsubscribe handle is idempotent.  Running it twice equals
running it once; and once its own callback id is gone (it is never reused,
ids are fresh), any later invocation is a complete no-op — it removes no
other callback, sends nothing, and leaves the state unchanged, even after
the collection has been re-subscribed by others. -/
theorem unsubscribe_handle_idempotent (s : RealtimeState) (c c2 : String)
    (id : Nat) (hg : Good s) (hfresh : id < s.nextCallbackId) :
    unsubscribeRun c id (unsubscribeRun c id s) = unsubscribeRun c id s ∧
    (id ∉ registeredIds c s →
      unsubscribeRun c id s = s ∧
      unsubscribeRun c id ((subscribe c2 s).1) = (subscribe c2 s).1) := by
  obtain ⟨hkeys, hrec⟩ := hg
  constructor
  · cases hl : lookupA s.subscriptions c with
    | none =>
        have h0 : unsubscribeRun c id s = s := by
          apply unsubscribeRun_noop
          intro cbs hh
          rw [hl] at hh
          cases hh
        rw [h0]
        exact h0
    | some cbs =>
        obtain ⟨hne, hnd, _⟩ := hrec c cbs hl
        by_cases hz : cbs.erase id = []
        · rw [unsubscribeRun_eq_delete hl hz]
          apply unsubscribeRun_noop
          intro cbs2 hh
          rw [show ({ removeCollectionListeners c (unsubscribeOnServer c s) with
                subscriptions := removeA (removeCollectionListeners c
                  (unsubscribeOnServer c s)).subscriptions c } :
              RealtimeState).subscriptions
            = removeA s.subscriptions c from by
              simp] at hh
          rw [lookupA_removeA_self hkeys] at hh
          cases hh
        · rw [unsubscribeRun_eq_erase hl hz]
          apply unsubscribeRun_noop
          intro cbs2 hh
          rw [show ({ s with
                subscriptions := setA s.subscriptions c (cbs.erase id) } :
              RealtimeState).subscriptions
            = setA s.subscriptions c (cbs.erase id) from rfl,
            lookupA_setA_self] at hh
          have : cbs2 = cbs.erase id := (Option.some.inj hh).symm
          subst this
          refine ⟨?_, hz⟩
          intro hmem
          exact ((hnd.mem_erase_iff).mp hmem).1 rfl
  · intro hnm
    have hnoop : unsubscribeRun c id s = s := by
      apply unsubscribeRun_noop
      intro cbs hh
      have hr : registeredIds c s = cbs := by
        unfold registeredIds
        rw [hh]
        rfl
      exact ⟨hr ▸ hnm, (hrec c cbs hh).1⟩
    refine ⟨hnoop, ?_⟩
    apply unsubscribeRun_noop
    intro cbs hh
    by_cases hcc : c2 = c
    · subst hcc
      cases hl : lookupA s.subscriptions c2 with
      | none =>
          rw [subscribe_subscriptions_none hl, lookupA_setA_self] at hh
          have : cbs = [s.nextCallbackId] := (Option.some.inj hh).symm
          subst this
          refine ⟨?_, by simp⟩
          intro hmem
          have : id = s.nextCallbackId := by simpa using hmem
          omega
      | some cbs0 =>
          rw [subscribe_subscriptions_some hl, lookupA_setA_self] at hh
          have : cbs = cbs0 ++ [s.nextCallbackId] := (Option.some.inj hh).symm
          subst this
          have hr : registeredIds c2 s = cbs0 := by
            unfold registeredIds
            rw [hl]
            rfl
          refine ⟨?_, by simp⟩
          intro hmem
          rcases List.mem_append.mp hmem with hm | hm
          · exact (hr ▸ hnm) hm
          · have : id = s.nextCallbackId := by simpa using hm
            omega
    · have hccs : c ≠ c2 := fun hh2 => hcc hh2.symm
      cases hl : lookupA s.subscriptions c2 with
      | none =>
          rw [subscribe_subscriptions_none hl, lookupA_setA_ne _ _ _ _ hccs,
              lookupA_setA_ne _ _ _ _ hccs] at hh
          have hr : registeredIds c s = cbs := by
            unfold registeredIds
            rw [hh]
            rfl
          exact ⟨hr ▸ hnm, (hrec c cbs hh).1⟩
      | some cbs0 =>
          rw [subscribe_subscriptions_some hl, lookupA_setA_ne _ _ _ _ hccs] at hh
          have hr : registeredIds c s = cbs := by
            unfold registeredIds
            rw [hh]
            rfl
          exact ⟨hr ▸ hnm, (hrec c cbs hh).1⟩

theorem unsubscribe_handle_idempotent_witness :
    unsubscribeRun "c" 0 (unsubscribeRun "c" 0 sTwoCb)
      = unsubscribeRun "c" 0 sTwoCb :=
  (unsubscribe_handle_idempotent sTwoCb "c" "c" 0 good_sTwoCb (by decide)).1

/-! ## Claims about the request pipeline -/

/-- Claim C2: with auth not skipped and autoRefresh on, a 401 first response
triggers exactly one reactive refresh followed by exactly one retry whose
headers are rebuilt from the refreshed store; a non-ok answer on the retry
(in particular a second 401) is NOT retried again — it surfaces as a failure
and the authentication-lost notification fires exactly once; and with no
static token, jwt mode, and the refreshed token not already expiring, the
rebuilt headers carry the refreshed bearer token. -/
theorem request_401_refresh_retry_once
    (cfg : HttpClientConfig) (env : RequestEnv) (st st' : Store)
    (timeoutOpt : Option Nat) (tks : AuthTokens)
    (hauto : cfg.autoRefresh = true)
    (hdur : env.fetch1.dur ≤ timeoutOpt.getD cfg.timeout)
    (h401 : env.fetch1.outcome = FetchOutcome.resp 401)
    (hrefresh : refreshTokenRun cfg env.now env.reactiveReply
        (buildHeaders cfg env.now env.proactiveReply false st).store
      = (Except.ok tks, st', true)) :
    (request cfg false timeoutOpt env st).fetches = 2 ∧
    (request cfg false timeoutOpt env st).retries = 1 ∧
    (request cfg false timeoutOpt env st).reactiveRefreshCalls = 1 ∧
    (request cfg false timeoutOpt env st).retryHeaders
      = some (buildHeaders cfg env.now env.retryProactiveReply false st').headers ∧
    (∀ s2, env.fetch2.outcome = FetchOutcome.resp s2 → respOk s2 = false →
      (request cfg false timeoutOpt env st).result
          = Except.error (parseError s2) ∧
      (request cfg false timeoutOpt env st).authErrorEvents = 1) ∧
    (cfg.token = none → cfg.authMode = AuthMode.jwt →
      isTokenExpired env.now st' = false →
      ("Authorization", "Bearer " ++ tks.accessToken) ∈
        (buildHeaders cfg env.now env.retryProactiveReply false st').headers) := by
  have hnot : ¬ env.fetch1.dur > timeoutOpt.getD cfg.timeout := by omega
  refine ⟨?_, ?_, ?_, ?_, ?_, ?_⟩
  · simp only [request, hauto, h401, hrefresh, if_neg hnot]
    cases env.fetch2.outcome with
    | netErr m => simp
    | resp s2 => by_cases hk : respOk s2 <;> simp [hk]
  · simp only [request, hauto, h401, hrefresh, if_neg hnot]
    cases env.fetch2.outcome with
    | netErr m => simp
    | resp s2 => by_cases hk : respOk s2 <;> simp [hk]
  · simp only [request, hauto, h401, hrefresh, if_neg hnot]
    cases env.fetch2.outcome with
    | netErr m => simp
    | resp s2 => by_cases hk : respOk s2 <;> simp [hk]
  · simp only [request, hauto, h401, hrefresh, if_neg hnot]
    cases env.fetch2.outcome with
    | netErr m => simp
    | resp s2 => by_cases hk : respOk s2 <;> simp [hk]
  · intro s2 hs2 hok
    simp only [request, hauto, h401, hrefresh, hs2, hok, if_neg hnot]
    simp [hok]
  · intro ht hm hexp
    have hacc : st'.accessToken = some tks.accessToken :=
      refreshTokenRun_ok_accessToken hrefresh
    unfold buildHeaders
    simp [hm, hauto, hexp, getAccessToken, ht, hacc]

/-- A default jwt configuration with autoRefresh on. -/
def cfgW : HttpClientConfig :=
  { authMode := AuthMode.jwt, autoRefresh := true, timeout := 30000,
    token := none, tenantId := none, headers := [] }

/-- A store with a valid token pair and no stored expiry. -/
def stW : Store :=
  { accessToken := some "old", refreshToken := some "r0", tokenExpiry := none,
    user := none, tenant := none }

/-- The store after the reactive refresh of `envRetry401` succeeds. -/
def stWRefreshed : Store :=
  { accessToken := some "new", refreshToken := some "r1", tokenExpiry := none,
    user := none, tenant := none }

/-- The tokens delivered by the reactive refresh of `envRetry401`. -/
def tksW : AuthTokens :=
  { accessToken := "new", refreshToken := some "r1", expiresAt := none }

/-- An environment answering 401 to both the original attempt and the retry,
with a succeeding refresh in between. -/
def envRetry401 : RequestEnv :=
  { now := 5000000, proactiveReply := RefreshReply.httpError 500,
    fetch1 := { dur := 10, outcome := FetchOutcome.resp 401 },
    reactiveReply := RefreshReply.ok "new" (some "r1") none,
    refreshDur := 5, retryProactiveReply := RefreshReply.httpError 500,
    fetch2 := { dur := 10, outcome := FetchOutcome.resp 401 } }

theorem request_401_refresh_retry_once_witness :
    (request cfgW false none envRetry401 stW).fetches = 2 ∧
    (request cfgW false none envRetry401 stW).result
      = Except.error (parseError 401) ∧
    (request cfgW false none envRetry401 stW).authErrorEvents = 1 :=
  ⟨(request_401_refresh_retry_once cfgW envRetry401 stW stWRefreshed none tksW
      rfl (by decide) rfl rfl).1,
   ((request_401_refresh_retry_once cfgW envRetry401 stW stWRefreshed none tksW
      rfl (by decide) rfl rfl).2.2.2.2.1 401 rfl (by decide)).1,
   ((request_401_refresh_retry_once cfgW envRetry401 stW stWRefreshed none tksW
      rfl (by decide) rfl rfl).2.2.2.2.1 401 rfl (by decide)).2⟩

/-- Claim C7: in jwt mode with auth not skipped and autoRefresh on, a stored
expiry within the 60 second buffer makes buildHeaders attempt a refresh
before the network call; when that refresh fails the failure is swallowed
(the store is unchanged, the headers carry whatever access token is stored)
and the request still executes its first network attempt with exactly those
headers, deferring any rejection to the reactive 401 path. -/
theorem proactive_refresh_swallowed
    (cfg : HttpClientConfig) (now errStatus : Nat) (st : Store)
    (hm : cfg.authMode = AuthMode.jwt) (hauto : cfg.autoRefresh = true)
    (hexp : isTokenExpired now st = true) :
    (buildHeaders cfg now (RefreshReply.httpError errStatus) false st).refreshAttempted
        = true ∧
    (buildHeaders cfg now (RefreshReply.httpError errStatus) false st).store = st ∧
    (buildHeaders cfg now (RefreshReply.httpError errStatus) false st).headers
      = (match getAccessToken cfg st with
         | some t => baseHeaders cfg ++ [("Authorization", "Bearer " ++ t)]
         | none => baseHeaders cfg) ∧
    (∀ env : RequestEnv, env.now = now →
      env.proactiveReply = RefreshReply.httpError errStatus →
      env.fetch1.dur ≤ cfg.timeout →
      (request cfg false none env st).headers1
        = (buildHeaders cfg now (RefreshReply.httpError errStatus) false st).headers ∧
      1 ≤ (request cfg false none env st).fetches) := by
  have hst : (refreshTokenRun cfg now (RefreshReply.httpError errStatus) st).2.1
      = st := refreshTokenRun_httpError cfg now errStatus st
  refine ⟨?_, ?_, ?_, ?_⟩
  · unfold buildHeaders
    rcases hre : refreshTokenRun cfg now (RefreshReply.httpError errStatus) st
      with ⟨res, st2, n⟩
    simp [hm, hauto, hexp, hre]
  · unfold buildHeaders
    rcases hre : refreshTokenRun cfg now (RefreshReply.httpError errStatus) st
      with ⟨res, st2, n⟩
    rw [hre] at hst
    simp at hst
    simp [hm, hauto, hexp, hre, hst]
  · unfold buildHeaders
    rcases hre : refreshTokenRun cfg now (RefreshReply.httpError errStatus) st
      with ⟨res, st2, n⟩
    rw [hre] at hst
    simp at hst
    simp only [hm, hauto, hexp, hre, hst]
    simp [hst]
  · intro env hn hp hd
    have hnot : ¬ env.fetch1.dur > (none : Option Nat).getD cfg.timeout := by
      simp only [Option.getD]
      omega
    unfold request
    rw [hn, hp, if_neg hnot]
    cases ho : env.fetch1.outcome with
    | netErr m => exact ⟨rfl, by norm_num⟩
    | resp status =>
        simp only []
        split
        · split
          · exact ⟨rfl, by norm_num⟩
          · split
            · exact ⟨rfl, by norm_num⟩
            · split
              · exact ⟨rfl, by norm_num⟩
              · exact ⟨rfl, by norm_num⟩
        · split
          · exact ⟨rfl, by norm_num⟩
          · exact ⟨rfl, by norm_num⟩

/-- A store whose token expires 30 seconds after `now = 5000000`, inside the
60 second buffer. -/
def stW7 : Store :=
  { accessToken := some "old", refreshToken := some "r0",
    tokenExpiry := some 5030000, user := none, tenant := none }

/-- An environment whose proactive refresh fails and whose first attempt
succeeds. -/
def envProactive : RequestEnv :=
  { envRetry401 with fetch1 := { dur := 10, outcome := FetchOutcome.resp 200 } }

theorem proactive_refresh_swallowed_witness :
    (buildHeaders cfgW 5000000 (RefreshReply.httpError 500) false stW7).refreshAttempted
        = true ∧
    (request cfgW false none envProactive stW7).headers1
      = (buildHeaders cfgW 5000000 (RefreshReply.httpError 500) false stW7).headers :=
  ⟨(proactive_refresh_swallowed cfgW 5000000 500 stW7 rfl rfl (by decide)).1,
   ((proactive_refresh_swallowed cfgW 5000000 500 stW7 rfl rfl (by decide)).2.2.2
      envProactive rfl rfl (by decide)).1⟩

/-- Claim C9 (amended): the ORIGINAL network attempt executes under the
caller- or default-configured timeout — when the timer fires before the first
response, the attempt is aborted and the caller receives the 408 TIMEOUT
failure with no retry.  The 401-triggered retry, however, is issued without
the abort signal (client.ts lines 274-282 pass no `signal`), so the result of
the call never depends on how long the retry takes: the timeout does not
cancel it. -/
theorem timeout_original_attempt_only
    (cfg : HttpClientConfig) (env : RequestEnv) (st : Store)
    (timeoutOpt : Option Nat) :
    (env.fetch1.dur > timeoutOpt.getD cfg.timeout →
      (request cfg false timeoutOpt env st).result
        = Except.error { message := "Request timeout", status := 408,
                         code := some "TIMEOUT" } ∧
      (request cfg false timeoutOpt env st).fetches = 1 ∧
      (request cfg false timeoutOpt env st).retries = 0) ∧
    (∀ d1 d2 : Nat,
      request cfg false timeoutOpt
        { env with fetch2 := { dur := d1, outcome := env.fetch2.outcome } } st
      = request cfg false timeoutOpt
        { env with fetch2 := { dur := d2, outcome := env.fetch2.outcome } } st) := by
  constructor
  · intro h
    unfold request
    rw [if_pos h]
    exact ⟨rfl, rfl, rfl⟩
  · intro d1 d2
    rfl

/-- An environment whose 401-triggered retry takes 100000 ms — far beyond the
30000 ms timeout — and then answers 200. -/
def envSlowRetry : RequestEnv :=
  { envRetry401 with fetch2 := { dur := 100000, outcome := FetchOutcome.resp 200 } }

/-- Claim C9 counterexample: the timeout expires long before the retry
response is obtained (the retry takes 100000 ms against a 30000 ms timeout),
yet the retry is not cancelled and the caller receives the retry result
instead of a Timeout failure. -/
theorem retry_not_cancelled_counterexample :
    envSlowRetry.fetch2.dur > (none : Option Nat).getD cfgW.timeout ∧
    (request cfgW false none envSlowRetry stW).retries = 1 ∧
    (request cfgW false none envSlowRetry stW).result = Except.ok 200 :=
  ⟨by decide, rfl, rfl⟩

/-- An environment whose original attempt takes 50000 ms against the 30000 ms
timeout. -/
def envSlowFirst : RequestEnv :=
  { envRetry401 with fetch1 := { dur := 50000, outcome := FetchOutcome.resp 200 } }

theorem timeout_original_attempt_only_witness :
    (request cfgW false none envSlowFirst stW).result
      = Except.error { message := "Request timeout", status := 408,
                       code := some "TIMEOUT" } ∧
    (request cfgW false none envSlowFirst stW).fetches = 1 :=
  ⟨((timeout_original_attempt_only cfgW envSlowFirst stW none).1 (by decide)).1,
   ((timeout_original_attempt_only cfgW envSlowFirst stW none).1 (by decide)).2.1⟩

/-! ## Claim C1: the refresh coordinator is single flight -/

theorem fupd_self {α : Type} (f : Nat → α) (k : Nat) (v : α) :
    fupd f k v k = v := by
  simp [fupd]

theorem fupd_ne {α : Type} (f : Nat → α) (k : Nat) (v : α) {n : Nat}
    (h : ¬ n = k) : fupd f k v n = f n := by
  simp [fupd, h]

/-- The inductive invariant of the coordinator: the pending episode is a
started, unsettled one still running its body; episodes not yet started have
no phase, no settled value and no network calls; an episode body issues its
network call only while reading and never more than once; settled episodes
are done; callers attach only to started episodes; a returned caller returns
exactly the settled value of the episode it attached to. -/
def CoordInv (s : CoordState) : Prop :=
  (∀ i, s.pending = some i → i < s.episodes ∧ s.settledV i = none ∧
      (s.phase i = some EpPhase.reading ∨ s.phase i = some EpPhase.fetchedP)) ∧
  (∀ i, s.episodes ≤ i →
      s.phase i = none ∧ s.settledV i = none ∧ s.netCallsOf i = 0) ∧
  (∀ i, (s.phase i = none → s.netCallsOf i = 0) ∧
        (s.phase i = some EpPhase.reading → s.netCallsOf i = 0) ∧
        s.netCallsOf i ≤ 1) ∧
  (∀ i r, s.settledV i = some r → s.phase i = some EpPhase.done) ∧
  (∀ c i, s.attachedV c = some i → i < s.episodes) ∧
  (∀ c r, s.returnedV c = some r →
      ∀ i, s.attachedV c = some i → s.settledV i = some r) ∧
  (∀ c r, s.returnedV c = some r → s.attachedV c ≠ none)

theorem coordInv_init : CoordInv CoordState.init := by
  unfold CoordInv CoordState.init
  refine ⟨?_, ?_, ?_, ?_, ?_, ?_, ?_⟩
  · intro i h
    cases h
  · intro i _
    exact ⟨rfl, rfl, rfl⟩
  · intro i
    refine ⟨fun _ => rfl, fun h => ?_, ?_⟩
    · cases h
    · exact Nat.zero_le 1
  · intro i r h
    cases h
  · intro c i h
    cases h
  · intro c r h
    cases h
  · intro c r h
    cases h

/-- Settling the pending episode preserves the invariant (covers both the
after-fetch settle and the NO_REFRESH_TOKEN settle). -/
theorem coordInv_settle {s : CoordState} (i0 : Nat) (r0 : RefreshResult)
    (hp : s.pending = some i0) (hinv : CoordInv s) :
    CoordInv (settleF i0 r0 s) := by
  obtain ⟨I1, I2, I3, I4, I5, I6, I7⟩ := hinv
  have hi0 : i0 < s.episodes := (I1 i0 hp).1
  unfold CoordInv
  dsimp only [settleF]
  refine ⟨?_, ?_, ?_, ?_, ?_, ?_, ?_⟩
  · intro i h
    cases h
  · intro i hle
    have hne : ¬ i = i0 := by omega
    exact ⟨by rw [fupd_ne _ _ _ hne]; exact (I2 i hle).1,
           by rw [fupd_ne _ _ _ hne]; exact (I2 i hle).2.1,
           (I2 i hle).2.2⟩
  · intro i
    by_cases hie : i = i0
    · subst hie
      refine ⟨fun h => ?_, fun h => ?_, (I3 i).2.2⟩
      · rw [fupd_self] at h
        cases h
      · rw [fupd_self] at h
        simp at h
    · refine ⟨fun h => ?_, fun h => ?_, (I3 i).2.2⟩
      · rw [fupd_ne _ _ _ hie] at h
        exact (I3 i).1 h
      · rw [fupd_ne _ _ _ hie] at h
        exact (I3 i).2.1 h
  · intro i r h
    by_cases hie : i = i0
    · subst hie
      exact fupd_self _ _ _
    · rw [fupd_ne _ _ _ hie] at h
      rw [fupd_ne _ _ _ hie]
      exact I4 i r h
  · exact I5
  · intro c r h j hat
    have hs := I6 c r h j hat
    by_cases hje : j = i0
    · subst hje
      rw [(I1 j hp).2.1] at hs
      cases hs
    · rw [fupd_ne _ _ _ hje]
      exact hs
  · exact I7

theorem coordInv_step {s s' : CoordState} (hinv : CoordInv s)
    (hs : CoordStep s s') : CoordInv s' := by
  obtain ⟨I1, I2, I3, I4, I5, I6, I7⟩ := hinv
  cases hs with
  | start c s hp hc =>
      unfold CoordInv
      dsimp only [startF]
      refine ⟨?_, ?_, ?_, ?_, ?_, ?_, ?_⟩
      · intro i h
        have hi : s.episodes = i := Option.some.inj h
        subst hi
        refine ⟨by omega, (I2 s.episodes (le_refl _)).2.1,
                Or.inl (fupd_self _ _ _)⟩
      · intro i hle
        have h1 : s.episodes ≤ i := by
          omega
        have hne : ¬ i = s.episodes := by
          omega
        exact ⟨by rw [fupd_ne _ _ _ hne]; exact (I2 i h1).1,
               (I2 i h1).2.1, (I2 i h1).2.2⟩
      · intro i
        by_cases hie : i = s.episodes
        · subst hie
          refine ⟨fun _ => (I2 s.episodes (le_refl _)).2.2,
                  fun _ => (I2 s.episodes (le_refl _)).2.2,
                  (I3 s.episodes).2.2⟩
        · refine ⟨fun h => ?_, fun h => ?_, (I3 i).2.2⟩
          · rw [fupd_ne _ _ _ hie] at h
            exact (I3 i).1 h
          · rw [fupd_ne _ _ _ hie] at h
            exact (I3 i).2.1 h
      · intro i r h
        by_cases hie : i = s.episodes
        · subst hie
          rw [(I2 s.episodes (le_refl _)).2.1] at h
          cases h
        · rw [fupd_ne _ _ _ hie]
          exact I4 i r h
      · intro c2 i h
        by_cases hc2 : c2 = c
        · subst hc2
          rw [fupd_self] at h
          have := Option.some.inj h
          omega
        · rw [fupd_ne _ _ _ hc2] at h
          have := I5 c2 i h
          omega
      · intro c2 r h i hat
        by_cases hc2 : c2 = c
        · subst hc2
          exact (I7 c2 r h hc).elim
        · rw [fupd_ne _ _ _ hc2] at hat
          exact I6 c2 r h i hat
      · intro c2 r h
        by_cases hc2 : c2 = c
        · subst hc2
          rw [fupd_self]
          simp
        · rw [fupd_ne _ _ _ hc2]
          exact I7 c2 r h
  | attach c i0 s hp hc =>
      unfold CoordInv
      dsimp only [attachF]
      refine ⟨I1, I2, I3, I4, ?_, ?_, ?_⟩
      · intro c2 j h
        by_cases hc2 : c2 = c
        · subst hc2
          rw [fupd_self] at h
          have hj : i0 = j := Option.some.inj h
          subst hj
          exact (I1 i0 hp).1
        · rw [fupd_ne _ _ _ hc2] at h
          exact I5 c2 j h
      · intro c2 r h j hat
        by_cases hc2 : c2 = c
        · subst hc2
          exact (I7 c2 r h hc).elim
        · rw [fupd_ne _ _ _ hc2] at hat
          exact I6 c2 r h j hat
      · intro c2 r h
        by_cases hc2 : c2 = c
        · subst hc2
          rw [fupd_self]
          simp
        · rw [fupd_ne _ _ _ hc2]
          exact I7 c2 r h
  | fire i0 s hp hr =>
      have hi0 : i0 < s.episodes := (I1 i0 hp).1
      unfold CoordInv
      dsimp only [fireF]
      refine ⟨?_, ?_, ?_, ?_, I5, I6, I7⟩
      · intro i h
        have hi : i = i0 := by
          rw [hp] at h
          exact (Option.some.inj h).symm
        subst hi
        exact ⟨(I1 i hp).1, (I1 i hp).2.1, Or.inr (fupd_self _ _ _)⟩
      · intro i hle
        have hne : ¬ i = i0 := by omega
        exact ⟨by rw [fupd_ne _ _ _ hne]; exact (I2 i hle).1,
               (I2 i hle).2.1,
               by rw [fupd_ne _ _ _ hne]; exact (I2 i hle).2.2⟩
      · intro i
        by_cases hie : i = i0
        · subst hie
          refine ⟨fun h => ?_, fun h => ?_, ?_⟩
          · rw [fupd_self] at h
            cases h
          · rw [fupd_self] at h
            simp at h
          · rw [fupd_self]
            have h0 := (I3 i).2.1 hr
            omega
        · refine ⟨fun h => ?_, fun h => ?_, ?_⟩
          · rw [fupd_ne _ _ _ hie] at h
            rw [fupd_ne _ _ _ hie]
            exact (I3 i).1 h
          · rw [fupd_ne _ _ _ hie] at h
            rw [fupd_ne _ _ _ hie]
            exact (I3 i).2.1 h
          · rw [fupd_ne _ _ _ hie]
            exact (I3 i).2.2
      · intro i r h
        by_cases hie : i = i0
        · subst hie
          rw [(I1 i hp).2.1] at h
          cases h
        · rw [fupd_ne _ _ _ hie]
          exact I4 i r h
  | settleFetched i0 r0 s hp hf =>
      exact coordInv_settle i0 r0 hp ⟨I1, I2, I3, I4, I5, I6, I7⟩
  | settleNoFetch i0 e s hp hr =>
      exact coordInv_settle i0 (RefreshResult.failure e) hp
        ⟨I1, I2, I3, I4, I5, I6, I7⟩
  | ret c0 i0 r0 s ha hsv hr =>
      unfold CoordInv
      dsimp only [retF]
      refine ⟨I1, I2, I3, I4, I5, ?_, ?_⟩
      · intro c2 r h j hat
        by_cases hc2 : c2 = c0
        · subst hc2
          rw [fupd_self] at h
          have hrr : r0 = r := Option.some.inj h
          subst hrr
          have hj : i0 = j := by
            rw [ha] at hat
            exact Option.some.inj hat
          subst hj
          exact hsv
        · rw [fupd_ne _ _ _ hc2] at h
          exact I6 c2 r h j hat
      · intro c2 r h
        by_cases hc2 : c2 = c0
        · subst hc2
          rw [ha]
          simp
        · rw [fupd_ne _ _ _ hc2] at h
          exact I7 c2 r h

theorem coordReach_inv {s : CoordState} (h : CoordReach s) : CoordInv s := by
  induction h with
  | init => exact coordInv_init
  | step _ hstep ih => exact coordInv_step ih hstep

/-- Claim C1: in every reachable coordinator state, each refresh episode has
issued at most one network refresh call; all callers attached to one shared
episode return the same success or the same failure value; and the pending
shared outcome of the episode a caller attached to is already cleared when
that caller returns. -/
theorem refresh_coordinator_single_flight (s : CoordState)
    (h : CoordReach s) :
    (∀ i, s.netCallsOf i ≤ 1) ∧
    (∀ c c2 i r r2, s.attachedV c = some i → s.attachedV c2 = some i →
      s.returnedV c = some r → s.returnedV c2 = some r2 → r = r2) ∧
    (∀ c i r, s.attachedV c = some i → s.returnedV c = some r →
      s.pending ≠ some i) := by
  obtain ⟨I1, I2, I3, I4, I5, I6, I7⟩ := coordReach_inv h
  refine ⟨fun i => (I3 i).2.2, ?_, ?_⟩
  · intro c c2 i r r2 ha ha2 hrc hrc2
    have h1 := I6 c r hrc i ha
    have h2 := I6 c2 r2 hrc2 i ha2
    rw [h1] at h2
    exact Option.some.inj h2
  · intro c i r ha hrc hpend
    have h1 := I6 c r hrc i ha
    have h2 := (I1 i hpend).2.1
    rw [h1] at h2
    cases h2

/-- The outcome of the witness trace: a successful refresh. -/
def rW : RefreshResult := RefreshResult.success tksW

/-- A concrete six step trace: caller 0 starts an episode, caller 1 attaches
to it, the episode fires its single fetch and settles successfully, then
both callers return. -/
def csFinal : CoordState :=
  retF 1 rW (retF 0 rW (settleF 0 rW (fireF 0
    (attachF 1 0 (startF 0 CoordState.init)))))

theorem coordReach_csFinal : CoordReach csFinal := by
  have h0 : CoordReach CoordState.init := CoordReach.init
  have h1 : CoordReach (startF 0 CoordState.init) :=
    CoordReach.step h0 (CoordStep.start 0 CoordState.init rfl rfl)
  have h2 : CoordReach (attachF 1 0 (startF 0 CoordState.init)) :=
    CoordReach.step h1
      (CoordStep.attach 1 0 (startF 0 CoordState.init) rfl rfl)
  have h3 : CoordReach (fireF 0 (attachF 1 0 (startF 0 CoordState.init))) :=
    CoordReach.step h2
      (CoordStep.fire 0 (attachF 1 0 (startF 0 CoordState.init)) rfl rfl)
  have h4 : CoordReach (settleF 0 rW (fireF 0
      (attachF 1 0 (startF 0 CoordState.init)))) :=
    CoordReach.step h3
      (CoordStep.settleFetched 0 rW
        (fireF 0 (attachF 1 0 (startF 0 CoordState.init))) rfl rfl)
  have h5 : CoordReach (retF 0 rW (settleF 0 rW (fireF 0
      (attachF 1 0 (startF 0 CoordState.init))))) :=
    CoordReach.step h4
      (CoordStep.ret 0 0 rW
        (settleF 0 rW (fireF 0 (attachF 1 0 (startF 0 CoordState.init))))
        rfl rfl rfl)
  exact CoordReach.step h5
    (CoordStep.ret 1 0 rW
      (retF 0 rW (settleF 0 rW (fireF 0
        (attachF 1 0 (startF 0 CoordState.init)))))
      rfl rfl rfl)

theorem refresh_coordinator_single_flight_witness :
    csFinal.netCallsOf 0 ≤ 1 ∧ csFinal.pending ≠ some 0 :=
  ⟨(refresh_coordinator_single_flight csFinal coordReach_csFinal).1 0,
   (refresh_coordinator_single_flight csFinal coordReach_csFinal).2.2 0 0 rW
     rfl rfl⟩

end Baasix
